import Mathlib

/-!
# Linux-IPC: shared memory segments and semaphores

A shallow embedding of `ipc.cpp` / `ipc.hpp`.

* C++ `int` and pointers are integers (`Int`), `size_t` is `Nat`; `NULL` is `0`
  and the failure value `(void*)-1` of `shmat` is `-1`.
* A member function takes the object and the world and returns the thrown
  exception or the returned value, together with the object and the world
  after the call.  An object keeps the assignments made before a `throw`.
* The operating system is a parameter: a kernel answers each system call with
  a return value and an `errno`, and may change its own state.  Every system
  call issued is recorded in the trace of the world, newest first.
-/

namespace LinuxIPC

/-! ## Constants of the system headers (Linux values) -/

/-- Flag `IPC_CREAT` of `<sys/ipc.h>` (octal 01000). -/
def IPC_CREAT : Int := 512

/-- Flag `IPC_EXCL` of `<sys/ipc.h>` (octal 02000). -/
def IPC_EXCL : Int := 1024

/-- Command `IPC_RMID` of `<sys/ipc.h>`. -/
def IPC_RMID : Int := 0

/-- Command `SETVAL` of `<sys/sem.h>`. -/
def SETVAL : Int := 16

/-- Command `GETVAL` of `<sys/sem.h>`. -/
def GETVAL : Int := 12

/-- Error number `ENOENT`. -/
def ENOENT : Int := 2

/-- Error number `EEXIST`. -/
def EEXIST : Int := 17

/-- Error number `EINVAL`. -/
def EINVAL : Int := 22

/-- Error number `ERANGE`. -/
def ERANGE : Int := 34

/-- The null pointer. -/
def NULL : Int := 0

/-- The value `(size_t)-1` on a 64-bit system. -/
def SIZE_MAX : Nat := 2 ^ 64 - 1

/-- The default permission bits `0600` (octal) of the header. -/
def attr0600 : Int := 384

/-- Class `IPCException`: an exception carrying its message. -/
structure IPCException where
  msg_ : String
  deriving DecidableEq, Repr

/-! ## The operating system seen from `SharedMemory` -/

/-- The system calls `SharedMemory` issues; `shmat` is always called with
address `NULL` and flags `0`, `shmctl` with buffer `NULL`.  `readShmmax` is the
read of `/proc/sys/kernel/shmmax` done by `maxSize`. -/
inductive ShmCall where
  | shmget (key : Int) (size : Nat) (shmflg : Int)
  | shmat (shmid : Int)
  | shmdt (shmaddr : Int)
  | shmctl (shmid : Int) (cmd : Int)
  | readShmmax
  deriving DecidableEq, Repr

/-- The answer of a system call: its return value and the `errno` it leaves. -/
structure SysReply where
  ret : Int
  errno : Int
  deriving DecidableEq, Repr

/-- A kernel over a state `σ`: how it answers a call, and the content of
`/proc/sys/kernel/shmmax` as `operator>>` extracts it into a `size_t`
(`none` when the file cannot be opened). -/
structure ShmKernel (σ : Type) where
  call : σ → ShmCall → SysReply × σ
  shmmax : σ → Option Nat

/-- The world: the state of the kernel and the calls issued so far, newest
first. -/
structure World (σ : Type) where
  os : σ
  trace : List ShmCall

/-- Issue one system call: record it and let the kernel answer. -/
def sys {σ : Type} (K : ShmKernel σ) (w : World σ) (c : ShmCall) : SysReply × World σ :=
  ((K.call w.os c).1, { os := (K.call w.os c).2, trace := c :: w.trace })

/-! ## Class `SharedMemory` -/

/-- The private members of `SharedMemory`. -/
structure SharedMemory where
  shmid : Int
  shm_key : Int
  mem : Int
  _detachOnDestruction : Bool
  _deleteOnDestruction : Bool
  _created : Bool
  _attrs : Int
  _size : Nat
  deriving DecidableEq, Repr

/-- The result of a member function returning `α`. -/
abbrev Res (σ : Type) (α : Type) : Type := Except IPCException α × SharedMemory × World σ

namespace SharedMemory

/-- Constructor `SharedMemory()`. -/
def new : SharedMemory :=
  { shm_key := 0, shmid := 0, mem := NULL, _attrs := 0, _size := 0,
    _detachOnDestruction := true, _deleteOnDestruction := false, _created := false }

/-- Constructor `SharedMemory(int key)`. -/
def newKey (key : Int) : SharedMemory :=
  { shm_key := key, shmid := 0, mem := NULL, _attrs := 0, _size := 0,
    _detachOnDestruction := true, _deleteOnDestruction := false, _created := false }

/-- Member `setDetachOnDispose`. -/
def setDetachOnDispose (self : SharedMemory) (enabled : Bool) : SharedMemory :=
  { self with _detachOnDestruction := enabled }

/-- Member `detachOnDispose`. -/
def detachOnDispose (self : SharedMemory) : Bool := self._detachOnDestruction

/-- Member `setDeleteOnDispose`. -/
def setDeleteOnDispose (self : SharedMemory) (enabled : Bool) : SharedMemory :=
  { self with _deleteOnDestruction := enabled }

/-- Member `isCreated`. -/
def isCreated (self : SharedMemory) : Bool := self._created

/-- Member `setKey`. -/
def setKey (self : SharedMemory) (key : Int) : SharedMemory :=
  { self with shm_key := key }

/-- Member `key`. -/
def key (self : SharedMemory) : Int := self.shm_key

/-- Member `get`. -/
def get (self : SharedMemory) : Int :=
  if self.shmid ≤ 0 then NULL else self.mem

/-- Member `isAttached`. -/
def isAttached (self : SharedMemory) : Bool :=
  if self.mem = NULL then false else true

/-- Static member `maxSize`: `(size_t)-1` when the file cannot be opened. -/
def maxSize {σ : Type} (K : ShmKernel σ) (w : World σ) : Nat × World σ :=
  (match K.shmmax w.os with
    | none => SIZE_MAX
    | some n => n,
   { w with trace := ShmCall.readShmmax :: w.trace })

/-- Member `create(int shm_key, size_t size, int attr)`. -/
def create {σ : Type} (K : ShmKernel σ) (self : SharedMemory) (shm_key : Int) (size : Nat)
    (attr : Int) (w : World σ) : Res σ Int :=
  if shm_key ≤ 0 then (.error ⟨"Illegal shared memory key"⟩, self, w)
  else if self.isAttached then
    (.error ⟨"Cannot create shared memory while already one is attached to this class object"⟩,
      self, w)
  else
    let g := sys K w (.shmget shm_key size (Int.lor attr IPC_CREAT))
    if g.1.ret < 0 then (.error ⟨"Error creating SharedMemory"⟩, self, g.2)
    else
      let self1 := { self with shmid := g.1.ret }
      let a := sys K g.2 (.shmat self1.shmid)
      let self2 := { self1 with mem := a.1.ret }
      if !self2.isAttached then (.error ⟨"Attaching shared memory failed"⟩, self2, a.2)
      else (.ok self2.mem, { self2 with _created := true, _attrs := attr, _size := size }, a.2)

/-- Member `create(size_t size, int attr)`. -/
def createStored {σ : Type} (K : ShmKernel σ) (self : SharedMemory) (size : Nat) (attr : Int)
    (w : World σ) : Res σ Int :=
  self.create K self.shm_key size attr w

/-- The end of `attach(size_t, int)`, from `this->shmid = shmid` on. -/
def attachMap {σ : Type} (K : ShmKernel σ) (self : SharedMemory) (shmid : Int) (size : Nat)
    (attr : Int) (w : World σ) : Res σ Int :=
  let self1 := { self with shmid := shmid }
  let a := sys K w (.shmat self1.shmid)
  let self2 := { self1 with mem := a.1.ret }
  if !self2.isAttached then (.error ⟨"Attaching shared memory failed"⟩, self2, a.2)
  else (.ok self2.mem, { self2 with _attrs := attr, _size := size }, a.2)

/-- Member `attach(const size_t size, int attr)`. -/
def attach {σ : Type} (K : ShmKernel σ) (self : SharedMemory) (size : Nat) (attr : Int)
    (w : World σ) : Res σ Int :=
  if self.shm_key < 0 then (.error ⟨"Illegal shared memory key"⟩, self, w)
  else if self.isAttached then
    (.error ⟨"Cannot create shared memory while already one is attached to this class object"⟩,
      self, w)
  else
    let m := maxSize K w
    if size > m.1 then
      (.error ⟨"Cannot allocate more memory than allowed by system"⟩, self, m.2)
    else
      let g := if self.shm_key = 0
        then sys K m.2 (.shmget self.shm_key size (Int.lor attr IPC_CREAT))
        else sys K m.2 (.shmget self.shm_key size (Int.lor (Int.lor attr IPC_CREAT) IPC_EXCL))
      if g.1.ret < 0 then
        if g.1.errno = EEXIST then
          let g2 := sys K g.2 (.shmget self.shm_key size attr)
          if g2.1.ret < 0 then (.error ⟨"Error creating SharedMemory"⟩, self, g2.2)
          else attachMap K { self with _created := false } g2.1.ret size attr g2.2
        else (.error ⟨"Error creating SharedMemory"⟩, self, g.2)
      else attachMap K { self with _created := true } g.1.ret size attr g.2

/-- Member `detach(void)`. -/
def detach {σ : Type} (K : ShmKernel σ) (self : SharedMemory) (w : World σ) : Res σ Unit :=
  if !self.isAttached then (.error ⟨"Shared-memory not attached"⟩, self, w)
  else
    let d := sys K w (.shmdt self.mem)
    if d.1.ret < 0 then (.error ⟨"Detaching shared memory failed"⟩, self, d.2)
    else (.ok (), { self with mem := NULL }, d.2)

/-- Static member `destroy(const int key, const size_t size, int attr)`. -/
def destroyStatic {σ : Type} (K : ShmKernel σ) (key : Int) (size : Nat) (attr : Int)
    (w : World σ) : Except IPCException Bool × World σ :=
  if key ≤ 0 then (.error ⟨"Illegal shared-memory key"⟩, w)
  else
    let g := sys K w (.shmget key size attr)
    if g.1.ret < 0 then (.error ⟨"Error getting SharedMemory"⟩, g.2)
    else
      let c := sys K g.2 (.shmctl g.1.ret IPC_RMID)
      (.ok (decide (c.1.ret = 0)), c.2)

/-- The end of `destroy(void)`, from `this->mem = NULL` on; `shmid` is the
local copy of the id taken at the start. -/
def destroyRemove {σ : Type} (K : ShmKernel σ) (self : SharedMemory) (shmid : Int)
    (w : World σ) : Res σ Unit :=
  let self1 := { self with mem := NULL, shmid := 0 }
  let c := sys K w (.shmctl shmid IPC_RMID)
  if c.1.ret < 0 then (.error ⟨"Destroying Shared memory failed"⟩, self1, c.2)
  else (.ok (), self1, c.2)

/-- Member `destroy(void)`. -/
def destroy {σ : Type} (K : ShmKernel σ) (self : SharedMemory) (w : World σ) : Res σ Unit :=
  let shmid := self.shmid
  if shmid ≤ 0 then (.error ⟨"Not attached to shared memory segment"⟩, self, w)
  else if self.isAttached then
    let d := sys K w (.shmdt self.mem)
    if d.1.ret < 0 then (.error ⟨"Error detaching shared memory"⟩, self, d.2)
    else destroyRemove K self shmid d.2
  else destroyRemove K self shmid w

/-- Destructor `~SharedMemory()`: the exception that leaves it, if any, and the
world afterwards.  The `try` block swallows what `detach` throws; the call of
the static `destroy` is outside of it. -/
def destructor {σ : Type} (K : ShmKernel σ) (self : SharedMemory) (w : World σ) :
    Except IPCException Unit × World σ :=
  let shm_key := self.shm_key
  let shmid := self.shmid
  let size := self._size
  let w1 :=
    if self._detachOnDestruction || self._deleteOnDestruction then
      if self.mem ≠ NULL then (self.detach K w).2.2 else w
    else w
  if self._deleteOnDestruction then
    if shmid ≤ 0 then
      let r := destroyStatic K shm_key size attr0600 w1
      match r.1 with
      | .error e => (.error e, r.2)
      | .ok _ => (.ok (), r.2)
    else (.ok (), (sys K w1 (.shmctl shmid IPC_RMID)).2)
  else (.ok (), w1)

end SharedMemory

/-! ## Objects over their lifetime -/

/-- The member functions that change an object. -/
inductive Op where
  | create (shm_key : Int) (size : Nat) (attr : Int)
  | createStored (size : Nat) (attr : Int)
  | attach (size : Nat) (attr : Int)
  | detach
  | destroy
  | setKey (key : Int)
  | setDetachOnDispose (enabled : Bool)
  | setDeleteOnDispose (enabled : Bool)

/-- One operation on an object; the caller catches what it throws, and the
object lives on. -/
def step {σ : Type} (K : ShmKernel σ) (sw : SharedMemory × World σ) (op : Op) :
    SharedMemory × World σ :=
  match op with
  | .create k size attr => (sw.1.create K k size attr sw.2).2
  | .createStored size attr => (sw.1.createStored K size attr sw.2).2
  | .attach size attr => (sw.1.attach K size attr sw.2).2
  | .detach => (sw.1.detach K sw.2).2
  | .destroy => (sw.1.destroy K sw.2).2
  | .setKey k => (sw.1.setKey k, sw.2)
  | .setDetachOnDispose b => (sw.1.setDetachOnDispose b, sw.2)
  | .setDeleteOnDispose b => (sw.1.setDeleteOnDispose b, sw.2)

/-- A sequence of operations on an object. -/
def run {σ : Type} (K : ShmKernel σ) (sw : SharedMemory × World σ) (ops : List Op) :
    SharedMemory × World σ :=
  ops.foldl (step K) sw

/-! ## A reference kernel for shared memory

The key namespace of System V shared memory as `shmget(2)`, `shmat(2)`,
`shmdt(2)` and `shmctl(2)` describe it, without permissions: a request is never
refused for lack of rights or of resources. -/

/-- A segment of the namespace. -/
structure Segment where
  key : Int
  shmid : Int
  size : Nat
  deriving DecidableEq, Repr

/-- State of the reference kernel: the segments, the id the next new segment
gets, the addresses mapped in the calling process, the next free address, and
the limit `shmmax`. -/
structure ShmState where
  segs : List Segment
  nextId : Int
  maps : List Int
  nextAddr : Int
  shmmax : Nat
  deriving DecidableEq, Repr

/-- Whether a segment exists under a key. -/
def ShmState.hasKey (st : ShmState) (key : Int) : Bool :=
  st.segs.any (fun g => decide (g.key = key))

/-- Whether a segment with this id exists. -/
def ShmState.hasId (st : ShmState) (shmid : Int) : Bool :=
  st.segs.any (fun g => decide (g.shmid = shmid))

/-- Creation of a new segment: `EINVAL` outside of `1 .. shmmax`. -/
def refCreate (st : ShmState) (key : Int) (size : Nat) : SysReply × ShmState :=
  if size = 0 ∨ st.shmmax < size then (⟨-1, EINVAL⟩, st)
  else (⟨st.nextId, 0⟩,
    { st with segs := ⟨key, st.nextId, size⟩ :: st.segs, nextId := st.nextId + 1 })

/-- The call `shmget` in the reference kernel; key `0` is `IPC_PRIVATE`. -/
def refShmget (st : ShmState) (key : Int) (size : Nat) (shmflg : Int) : SysReply × ShmState :=
  if key = 0 then refCreate st key size
  else
    match st.segs.find? (fun g => decide (g.key = key)) with
    | some g =>
      if Int.testBit shmflg 9 && Int.testBit shmflg 10 then (⟨-1, EEXIST⟩, st)
      else if g.size < size then (⟨-1, EINVAL⟩, st)
      else (⟨g.shmid, 0⟩, st)
    | none =>
      if Int.testBit shmflg 9 then refCreate st key size else (⟨-1, ENOENT⟩, st)

/-- The reference kernel. -/
def refCall (st : ShmState) (c : ShmCall) : SysReply × ShmState :=
  match c with
  | .shmget key size shmflg => refShmget st key size shmflg
  | .shmat shmid =>
    if st.hasId shmid then
      (⟨st.nextAddr, 0⟩, { st with maps := st.nextAddr :: st.maps, nextAddr := st.nextAddr + 4096 })
    else (⟨-1, EINVAL⟩, st)
  | .shmdt addr =>
    if addr ∈ st.maps then (⟨0, 0⟩, { st with maps := st.maps.erase addr })
    else (⟨-1, EINVAL⟩, st)
  | .shmctl shmid cmd =>
    if cmd = IPC_RMID ∧ st.hasId shmid = true then
      (⟨0, 0⟩, { st with segs := st.segs.filter (fun g => decide (g.shmid ≠ shmid)) })
    else (⟨-1, EINVAL⟩, st)
  | .readShmmax => (⟨0, 0⟩, st)

/-- The reference kernel as a `ShmKernel`. -/
def refKernel : ShmKernel ShmState :=
  { call := refCall, shmmax := fun st => some st.shmmax }

/-- An empty namespace whose first id is `firstId`. -/
def emptyShm (firstId : Int) : World ShmState :=
  { os := { segs := [], nextId := firstId, maps := [], nextAddr := 4096, shmmax := 33554432 },
    trace := [] }

/-- A namespace that holds one segment of 64 bytes under key 42, made by
somebody else. -/
def oneSegShm : World ShmState :=
  { os := { segs := [⟨42, 3, 64⟩], nextId := 4, maps := [], nextAddr := 4096,
            shmmax := 33554432 },
    trace := [] }

/-- An object whose address the reference kernel does not hold as a mapping
(it was unmapped behind its back, as the static `detach(void*)` does). -/
def stale42 : SharedMemory :=
  { shmid := 1, shm_key := 42, mem := 8192, _detachOnDestruction := true,
    _deleteOnDestruction := false, _created := false, _attrs := 0, _size := 0 }

/-! ## The operating system seen from `Semaphore` -/

/-- The system calls `Semaphore` issues.  `semctl` carries its optional fourth
argument; `semop` is always called with one `sembuf`, whose three fields are
given. -/
inductive SemCall where
  | semget (key : Int) (nsems : Int) (semflg : Int)
  | semctl (semid : Int) (semnum : Int) (cmd : Int) (arg : Option Int)
  | semop (semid : Int) (sem_num : Int) (sem_op : Int) (sem_flg : Int)
  deriving DecidableEq, Repr

/-- A kernel for semaphores: the return value of a call, or `none` when the
call does not return and the caller stays suspended. -/
structure SemKernel (σ : Type) where
  call : σ → SemCall → Option Int × σ

/-- The world of a semaphore: kernel state and calls issued, newest first. -/
structure SemWorld (σ : Type) where
  os : σ
  trace : List SemCall

/-- Issue one semaphore system call. -/
def sysSem {σ : Type} (K : SemKernel σ) (w : SemWorld σ) (c : SemCall) :
    Option Int × SemWorld σ :=
  ((K.call w.os c).1, { os := (K.call w.os c).2, trace := c :: w.trace })

/-- How a member function of `Semaphore` ends: it returns, it throws, or it
never comes back from a system call. -/
inductive Outcome (α : Type) where
  | ok (a : α)
  | raise (e : IPCException)
  | blocked
  deriving DecidableEq, Repr

/-- Conversion of an `int` to the `short` field `sem_op` (two's complement,
16 bits). -/
def toShort (x : Int) : Int := (x + 32768) % 65536 - 32768

/-! ## Class `Semaphore` -/

/-- The private members of `Semaphore`. -/
structure Semaphore where
  semid : Int
  semkey : Int
  deriving DecidableEq, Repr

namespace Semaphore

/-- Constructor `Semaphore(int key, int attr)`. -/
def new {σ : Type} (K : SemKernel σ) (key : Int) (attr : Int) (w : SemWorld σ) :
    Outcome Semaphore × SemWorld σ :=
  match sysSem K w (.semget key 1 (Int.lor IPC_CREAT attr)) with
  | (none, w1) => (.blocked, w1)
  | (some r, w1) =>
    if r < 0 then (.raise ⟨"Error creating semaphore"⟩, w1)
    else (.ok { semkey := key, semid := r }, w1)

/-- Member `key`. -/
def key (self : Semaphore) : Int := self.semkey

/-- Static member `destroy(const int key, const int attr)`. -/
def destroyStatic {σ : Type} (K : SemKernel σ) (key : Int) (attr : Int) (w : SemWorld σ) :
    Outcome Bool × SemWorld σ :=
  match sysSem K w (.semget key 1 attr) with
  | (none, w1) => (.blocked, w1)
  | (some semid, w1) =>
    if semid ≤ 0 then (.ok false, w1)
    else
      match sysSem K w1 (.semctl semid 0 IPC_RMID none) with
      | (none, w2) => (.blocked, w2)
      | (some r, w2) => if r < 0 then (.ok false, w2) else (.ok true, w2)

/-- Member `destroy()`. -/
def destroy {σ : Type} (K : SemKernel σ) (self : Semaphore) (w : SemWorld σ) :
    Outcome Unit × Semaphore × SemWorld σ :=
  if self.semid < 0 then (.raise ⟨"Illegal semaphore id"⟩, self, w)
  else
    match sysSem K w (.semctl self.semid 0 IPC_RMID none) with
    | (none, w1) => (.blocked, self, w1)
    | (some r, w1) =>
      if r < 0 then (.raise ⟨"Error destroying semaphore"⟩, self, w1)
      else (.ok (), { self with semid := 0 }, w1)

/-- Member `setValue`. -/
def setValue {σ : Type} (K : SemKernel σ) (self : Semaphore) (value : Int) (w : SemWorld σ) :
    Outcome Unit × SemWorld σ :=
  if self.semid < 0 then (.raise ⟨"Illegal semaphore id"⟩, w)
  else
    match sysSem K w (.semctl self.semid 0 SETVAL (some value)) with
    | (none, w1) => (.blocked, w1)
    | (some r, w1) =>
      if r < 0 then (.raise ⟨"Error setting value of semaphore"⟩, w1) else (.ok (), w1)

/-- Member `getValue`. -/
def getValue {σ : Type} (K : SemKernel σ) (self : Semaphore) (w : SemWorld σ) :
    Outcome Int × SemWorld σ :=
  if self.semid < 0 then (.raise ⟨"Illegal semaphore id"⟩, w)
  else
    match sysSem K w (.semctl self.semid 0 GETVAL none) with
    | (none, w1) => (.blocked, w1)
    | (some semValue, w1) =>
      if semValue < 0 then (.raise ⟨"Error getting value of semaphore"⟩, w1)
      else (.ok semValue, w1)

/-- Member `increase`; `sop.sem_op = count` narrows the `int` to a `short`. -/
def increase {σ : Type} (K : SemKernel σ) (self : Semaphore) (count : Int) (w : SemWorld σ) :
    Outcome Unit × SemWorld σ :=
  if self.semid < 0 then (.raise ⟨"Illegal semaphore id"⟩, w)
  else if count = 0 then (.ok (), w)
  else if count < 0 then (.raise ⟨"Semaphore counter cannot be negative"⟩, w)
  else
    match sysSem K w (.semop self.semid 0 (toShort count) 0) with
    | (none, w1) => (.blocked, w1)
    | (some r, w1) =>
      if r < 0 then (.raise ⟨"Error increasing semaphore"⟩, w1) else (.ok (), w1)

/-- Member `decrease`; `sop.sem_op = -count` narrows the `int` to a `short`
(`count` is positive there, so `-count` is an `int`). -/
def decrease {σ : Type} (K : SemKernel σ) (self : Semaphore) (count : Int) (w : SemWorld σ) :
    Outcome Unit × SemWorld σ :=
  if self.semid < 0 then (.raise ⟨"Illegal semaphore id"⟩, w)
  else if count = 0 then (.ok (), w)
  else if count < 0 then (.raise ⟨"Semaphore counter cannot be negative"⟩, w)
  else
    match sysSem K w (.semop self.semid 0 (toShort (-count)) 0) with
    | (none, w1) => (.blocked, w1)
    | (some r, w1) =>
      if r < 0 then (.raise ⟨"Error increasing semaphore"⟩, w1) else (.ok (), w1)

/-- Member `aquire`. -/
def aquire {σ : Type} (K : SemKernel σ) (self : Semaphore) (count : Int) (w : SemWorld σ) :
    Outcome Unit × SemWorld σ :=
  self.decrease K count w

/-- Member `release`. -/
def release {σ : Type} (K : SemKernel σ) (self : Semaphore) (count : Int) (w : SemWorld σ) :
    Outcome Unit × SemWorld σ :=
  self.increase K count w

end Semaphore

/-! ## A reference kernel for semaphores

Semaphore sets of one semaphore as `semget(2)`, `semctl(2)` and `semop(2)`
describe them, without permissions, and with the calling process as the only
participant: an operation that has to wait never returns. -/

/-- The largest value of a semaphore, `SEMVMX`. -/
def SEMVMX : Int := 32767

/-- State of the reference kernel: the value of each live semaphore by id, the
id under each key, and the id the next new semaphore gets. -/
structure SemState where
  semval : Int → Option Int
  byKey : Int → Option Int
  nextId : Int

/-- A new semaphore set under a key; its value starts at `0`. -/
def refSemCreate (st : SemState) (key : Int) : Option Int × SemState :=
  (some st.nextId,
    { semval := fun i => if i = st.nextId then some 0 else st.semval i,
      byKey := fun k => if k = key ∧ key ≠ 0 then some st.nextId else st.byKey k,
      nextId := st.nextId + 1 })

/-- The call `semctl` on a live semaphore of value `v`. -/
def refSemctl (st : SemState) (semid : Int) (v : Int) (cmd : Int) (arg : Option Int) :
    Option Int × SemState :=
  if cmd = IPC_RMID then
    (some 0,
      { st with semval := fun i => if i = semid then none else st.semval i,
                byKey := fun k => if st.byKey k = some semid then none else st.byKey k })
  else if cmd = GETVAL then (some v, st)
  else if cmd = SETVAL then
    match arg with
    | some x =>
      if 0 ≤ x ∧ x ≤ SEMVMX then
        (some 0, { st with semval := fun i => if i = semid then some x else st.semval i })
      else (some (-1), st)
    | none => (some (-1), st)
  else (some (-1), st)

/-- The call `semop` with flags `0` on a live semaphore of value `v`: add, wait
for zero, or take; a wait that nobody can end does not return. -/
def refSemop (st : SemState) (semid : Int) (v : Int) (sem_op : Int) : Option Int × SemState :=
  if 0 < sem_op then
    if SEMVMX < v + sem_op then (some (-1), st)
    else (some 0, { st with semval := fun i => if i = semid then some (v + sem_op) else st.semval i })
  else if sem_op = 0 then
    if v = 0 then (some 0, st) else (none, st)
  else
    if -sem_op ≤ v then
      (some 0, { st with semval := fun i => if i = semid then some (v + sem_op) else st.semval i })
    else (none, st)

/-- The reference kernel for semaphores. -/
def refSemCall (st : SemState) (c : SemCall) : Option Int × SemState :=
  match c with
  | .semget key nsems semflg =>
    if key = 0 then
      (if nsems = 1 then refSemCreate st key else (some (-1), st))
    else
      match st.byKey key with
      | some semid =>
        if Int.testBit semflg 9 && Int.testBit semflg 10 then (some (-1), st)
        else if 1 < nsems then (some (-1), st)
        else (some semid, st)
      | none =>
        if Int.testBit semflg 9 then
          (if nsems = 1 then refSemCreate st key else (some (-1), st))
        else (some (-1), st)
  | .semctl semid semnum cmd arg =>
    match st.semval semid with
    | some v => if semnum = 0 then refSemctl st semid v cmd arg else (some (-1), st)
    | none => (some (-1), st)
  | .semop semid sem_num sem_op sem_flg =>
    match st.semval semid with
    | some v =>
      if sem_num = 0 ∧ sem_flg = 0 then refSemop st semid v sem_op else (some (-1), st)
    | none => (some (-1), st)

/-- The reference kernel as a `SemKernel`. -/
def refSemKernel : SemKernel SemState :=
  { call := refSemCall }

/-- A namespace with two semaphores: id 7 under key 0x823, and id 0 under key
99, which belongs to another program; both have value 1. -/
def twoSems : SemWorld SemState :=
  { os := { semval := fun i => if i = 7 then some 1 else if i = 0 then some 1 else none,
            byKey := fun k => if k = 2083 then some 7 else if k = 99 then some 0 else none,
            nextId := 8 },
    trace := [] }

/-- Error number `ENOMEM`. -/
def ENOMEM : Int := 12

/-- The reference kernel for a process that has no room left for a mapping:
every `shmat` fails with `ENOMEM` and returns `(void*)-1`; the other calls are
those of the reference kernel. -/
def noMapKernel : ShmKernel ShmState :=
  { call := fun st c =>
      match c with
      | .shmat _ => (⟨-1, ENOMEM⟩, st)
      | _ => refCall st c,
    shmmax := fun st => some st.shmmax }

/-! ## A kernel that keeps a record of its answers -/

/-- The exception of `create` and `attach` for an object that is attached. -/
def errAlreadyAttached : IPCException :=
  ⟨"Cannot create shared memory while already one is attached to this class object"⟩

/-- The exception of `create` and `attach` for a bad key. -/
def errIllegalKey : IPCException := ⟨"Illegal shared memory key"⟩

/-- The exception of `attach` for a size above `maxSize()`. -/
def errOversize : IPCException := ⟨"Cannot allocate more memory than allowed by system"⟩

/-- The exception of `create` and `attach` when `shmget` fails. -/
def errCreationFailed : IPCException := ⟨"Error creating SharedMemory"⟩

/-- The exception of `detach()` for an object that is not attached. -/
def errNotAttached : IPCException := ⟨"Shared-memory not attached"⟩

/-- The exception of `detach()` when `shmdt` fails. -/
def errDetachFailed : IPCException := ⟨"Detaching shared memory failed"⟩

/-- The round trip on a semaphore: set the value, then acquire and release
`c`, reading the value after each; the six outcomes in order. -/
def roundTrip {σ : Type} (K : SemKernel σ) (sem : Semaphore) (v c : Int) (w : SemWorld σ) :
    Outcome Unit × Outcome Int × Outcome Unit × Outcome Int × Outcome Unit × Outcome Int :=
  let r1 := sem.setValue K v w
  let r2 := sem.getValue K r1.2
  let r3 := sem.aquire K c r2.2
  let r4 := sem.getValue K r3.2
  let r5 := sem.release K c r4.2
  let r6 := sem.getValue K r5.2
  (r1.1, r2.1, r3.1, r4.1, r5.1, r6.1)

/-- The exception of `increase` and `decrease` for a negative count. -/
def errNegativeCount : IPCException := ⟨"Semaphore counter cannot be negative"⟩

/-- A semaphore object after `n` calls of `destroy()`, the only member
function that writes a member; the caller catches what they throw. -/
def destroyTimes {σ : Type} (K : SemKernel σ) (n : Nat) (sw : Semaphore × SemWorld σ) :
    Semaphore × SemWorld σ :=
  match n with
  | 0 => sw
  | n + 1 => destroyTimes K n (sw.1.destroy K sw.2).2

/-! ## Invariant of the id of a mapped object -/

open SharedMemory

/-- A value in the range of `short` is not changed by the conversion. -/
theorem toShort_of_small (c : Int) (h0 : -32768 ≤ c) (h1 : c ≤ 32767) : toShort c = c := by
  unfold toShort
  omega

/-- `setValue` on a live semaphore of the reference kernel. -/
theorem setValue_ref (sem : Semaphore) (w : SemWorld SemState) (x v : Int)
    (hid : 0 ≤ sem.semid) (hlive : w.os.semval sem.semid = some x)
    (h0 : 0 ≤ v) (h1 : v ≤ 32767) :
    (sem.setValue refSemKernel v w).1 = .ok () ∧
    (sem.setValue refSemKernel v w).2.os.semval sem.semid = some v := by
  unfold Semaphore.setValue
  rw [if_neg (not_lt.mpr hid)]
  simp [sysSem, refSemKernel, refSemCall, hlive, refSemctl, IPC_RMID, SETVAL, GETVAL, SEMVMX, h0, h1]

/-- `getValue` on a live semaphore of the reference kernel. -/
theorem getValue_ref (sem : Semaphore) (w : SemWorld SemState) (v : Int)
    (hid : 0 ≤ sem.semid) (hlive : w.os.semval sem.semid = some v) (h0 : 0 ≤ v) :
    (sem.getValue refSemKernel w).1 = .ok v ∧
    (sem.getValue refSemKernel w).2.os.semval sem.semid = some v := by
  unfold Semaphore.getValue
  rw [if_neg (not_lt.mpr hid)]
  have h0n : ¬ v < 0 := not_lt.mpr h0
  simp [sysSem, refSemKernel, refSemCall, hlive, refSemctl, IPC_RMID, GETVAL, h0n]

/-- `decrease` by at most the value: it returns, and the value goes down. -/
theorem decrease_ref (sem : Semaphore) (w : SemWorld SemState) (v c : Int)
    (hid : 0 ≤ sem.semid) (hlive : w.os.semval sem.semid = some v)
    (h0 : 0 ≤ c) (h1 : c ≤ v) (h2 : v ≤ 32767) :
    (sem.decrease refSemKernel c w).1 = .ok () ∧
    (sem.decrease refSemKernel c w).2.os.semval sem.semid = some (v - c) := by
  unfold Semaphore.decrease
  rw [if_neg (not_lt.mpr hid)]
  by_cases hc : c = 0
  · subst hc
    simpa using hlive
  · have hs : toShort (-c) = -c := toShort_of_small (-c) (by omega) (by omega)
    have hpos : 0 < c := by omega
    rw [if_neg hc, if_neg (not_lt.mpr h0), hs]
    have h3 : ¬ (0 < -c) := by omega
    have h4 : ¬ (-c = 0) := by omega
    have h5 : v + -c = v - c := by ring
    simp [sysSem, refSemKernel, refSemCall, hlive, refSemop, h3, h1, hc, h5]

/-- `increase` within `SEMVMX`: it returns, and the value goes up. -/
theorem increase_ref (sem : Semaphore) (w : SemWorld SemState) (v c : Int)
    (hid : 0 ≤ sem.semid) (hlive : w.os.semval sem.semid = some v)
    (h0 : 0 ≤ c) (h2 : v + c ≤ 32767) (hv : 0 ≤ v) :
    (sem.increase refSemKernel c w).1 = .ok () ∧
    (sem.increase refSemKernel c w).2.os.semval sem.semid = some (v + c) := by
  unfold Semaphore.increase
  rw [if_neg (not_lt.mpr hid)]
  by_cases hc : c = 0
  · subst hc
    simpa using hlive
  · have hs : toShort c = c := toShort_of_small c (by omega) (by omega)
    have hpos : 0 < c := by omega
    rw [if_neg hc, if_neg (not_lt.mpr h0), hs]
    have h3 : ¬ (SEMVMX < v + c) := by unfold SEMVMX; omega
    simp [sysSem, refSemKernel, refSemCall, hlive, refSemop, h3, hpos]

/-! ## The id of a semaphore object -/

/-- The constructor gives an object only with an id that is not negative. -/
theorem new_semid_nonneg {σ : Type} (K : SemKernel σ) (key attr : Int) (w : SemWorld σ)
    (s : Semaphore) (h : (Semaphore.new K key attr w).1 = .ok s) : 0 ≤ s.semid := by
  unfold Semaphore.new at h
  split at h
  · cases h
  · split_ifs at h with hr
    cases h
    exact not_lt.mp hr

/-- The member `destroy()` keeps the id not negative: it writes `0` or nothing. -/
theorem destroy_semid_nonneg {σ : Type} (K : SemKernel σ) (s : Semaphore) (w : SemWorld σ)
    (h : 0 ≤ s.semid) : 0 ≤ (s.destroy K w).2.1.semid := by
  unfold Semaphore.destroy
  rw [if_neg (not_lt.mpr h)]
  split
  · exact h
  · split_ifs
    · exact h
    · exact le_refl 0

/-- Any number of calls of `destroy()` keeps the id not negative. -/
theorem destroyTimes_semid_nonneg {σ : Type} (K : SemKernel σ) (n : Nat)
    (sw : Semaphore × SemWorld σ) (h : 0 ≤ sw.1.semid) :
    0 ≤ (destroyTimes K n sw).1.semid := by
  induction n generalizing sw with
  | zero => exact h
  | succ n ih => exact ih _ (destroy_semid_nonneg K sw.1 sw.2 h)

/-- With an id that is not negative, `decrease` and `increase` throw for a
negative count and return for the count `0`, and the world is as before. -/
theorem count_checked_nonneg_id {σ : Type} (K : SemKernel σ) (s : Semaphore) (w : SemWorld σ)
    (count : Int) (h : 0 ≤ s.semid) :
    (count < 0 →
      s.decrease K count w = (.raise errNegativeCount, w) ∧
      s.increase K count w = (.raise errNegativeCount, w)) ∧
    (count = 0 →
      s.decrease K count w = (.ok (), w) ∧ s.increase K count w = (.ok (), w)) := by
  refine ⟨fun hc => ⟨?_, ?_⟩, fun hc => ⟨?_, ?_⟩⟩
  · have h0 : ¬ count = 0 := by omega
    unfold Semaphore.decrease
    rw [if_neg (not_lt.mpr h), if_neg h0, if_pos hc]
    rfl
  · have h0 : ¬ count = 0 := by omega
    unfold Semaphore.increase
    rw [if_neg (not_lt.mpr h), if_neg h0, if_pos hc]
    rfl
  · unfold Semaphore.decrease
    rw [if_neg (not_lt.mpr h), if_pos hc]
  · unfold Semaphore.increase
    rw [if_neg (not_lt.mpr h), if_pos hc]

/-! ## The member `detach()` by the value of `isAttached()` -/

/-- The member `detach()` on an object with `isAttached()` false throws the
exception for that and issues no system call; with `isAttached()` true, when
`shmdt` succeeds, `isAttached()` is false and `get()` is `NULL` afterwards, and
when `shmdt` fails, `detach()` throws and the object is as before. -/
theorem detach_contract {σ : Type} (K : ShmKernel σ) (s : SharedMemory) (w : World σ) :
    (s.isAttached = false → s.detach K w = (.error errNotAttached, s, w)) ∧
    (s.isAttached = true → 0 ≤ (K.call w.os (.shmdt s.mem)).1.ret →
      (s.detach K w).1 = .ok () ∧ (s.detach K w).2.1.isAttached = false ∧
      (s.detach K w).2.1.get = NULL ∧
      (s.detach K w).2.2.trace = .shmdt s.mem :: w.trace) ∧
    (s.isAttached = true → (K.call w.os (.shmdt s.mem)).1.ret < 0 →
      (s.detach K w).1 = .error errDetachFailed ∧ (s.detach K w).2.1 = s ∧
      (s.detach K w).2.1.isAttached = true ∧ (s.detach K w).2.1.mem = s.mem) := by
  refine ⟨?_, ?_, ?_⟩
  · intro h
    unfold detach
    rw [h]
    rfl
  · intro h hr
    unfold detach
    dsimp only
    rw [h]
    simp only [Bool.not_true, Bool.false_eq_true, if_false]
    rw [if_neg (by simpa [sys] using hr)]
    refine ⟨rfl, rfl, ?_, rfl⟩
    simp [SharedMemory.get]
  · intro h hr
    unfold detach
    dsimp only
    rw [h]
    simp only [Bool.not_true, Bool.false_eq_true, if_false]
    rw [if_pos (by simpa [sys] using hr)]
    exact ⟨rfl, rfl, h, rfl⟩

/-- The three cases on the reference kernel: `SharedMemory(42)` with `mem`
`NULL`; the same object attached; and an object whose address the kernel does
not know as a mapping. -/
theorem detach_contract_witness :
    (SharedMemory.newKey 42).detach refKernel (emptyShm 1)
      = (.error errNotAttached, SharedMemory.newKey 42, emptyShm 1) ∧
    ((run refKernel (SharedMemory.newKey 42, emptyShm 1) [.attach 16 attr0600]).1.detach refKernel
        (run refKernel (SharedMemory.newKey 42, emptyShm 1) [.attach 16 attr0600]).2).1
      = .ok () ∧
    (stale42.detach refKernel (emptyShm 1)).1 = .error errDetachFailed :=
  ⟨(detach_contract refKernel (SharedMemory.newKey 42) (emptyShm 1)).1 rfl,
    ((detach_contract refKernel
      (run refKernel (SharedMemory.newKey 42, emptyShm 1) [.attach 16 attr0600]).1
      (run refKernel (SharedMemory.newKey 42, emptyShm 1) [.attach 16 attr0600]).2).2.1
      (by decide) (by decide)).1,
    ((detach_contract refKernel stale42 (emptyShm 1)).2.2 (by decide) (by decide)).1⟩

/-! ## Claims -/

/-- C2: on the reference kernel a segment exists under key 42 before the call;
`create(42, 16, 0600)` on `SharedMemory(42)` succeeds, opens that segment
(id 3, no segment is added) and leaves `isCreated()` true. -/
theorem create_sets_created_on_existing_segment :
    oneSegShm.os.hasKey 42 = true ∧
    ((SharedMemory.newKey 42).create refKernel 42 16 attr0600 oneSegShm).1 = .ok 4096 ∧
    ((SharedMemory.newKey 42).create refKernel 42 16 attr0600 oneSegShm).2.1.shmid = 3 ∧
    ((SharedMemory.newKey 42).create refKernel 42 16 attr0600 oneSegShm).2.2.os.segs
      = oneSegShm.os.segs ∧
    ((SharedMemory.newKey 42).create refKernel 42 16 attr0600 oneSegShm).2.1.isCreated = true := by
  refine ⟨by decide, rfl, by decide, by decide, by decide⟩

/-- C3: the destructor lets an exception out.  For `SharedMemory()` with
`setDeleteOnDispose(true)` the static `destroy` refuses the key `0`; for
`SharedMemory(42)` with `setDeleteOnDispose(true)` on an empty namespace it
throws because `shmget` finds nothing. -/
theorem destructor_throws :
    (destructor refKernel (SharedMemory.new.setDeleteOnDispose true) (emptyShm 1)).1
      = .error ⟨"Illegal shared-memory key"⟩ ∧
    (destructor refKernel ((SharedMemory.newKey 42).setDeleteOnDispose true) (emptyShm 1)).1
      = .error ⟨"Error getting SharedMemory"⟩ := by
  exact ⟨rfl, rfl⟩

/-- C4: on the reference kernel with no segment under key 5, the static
`destroy(5, 16, 0600)` throws; it does not return `false`. -/
theorem destroyStatic_throws_when_absent :
    (emptyShm 1).os.hasKey 5 = false ∧
    (destroyStatic refKernel 5 16 attr0600 (emptyShm 1)).1
      = .error ⟨"Error getting SharedMemory"⟩ ∧
    (destroyStatic refKernel 5 16 attr0600 (emptyShm 1)).2.trace
      = [.shmget 5 16 attr0600] := by
  exact ⟨by decide, rfl, by decide⟩

/-- C5: on the reference kernel with the semaphores 7 and 0, `destroy()` on
the object of semaphore 7 succeeds and leaves `semid = 0`; the second
`destroy()` passes the check `semid < 0`, asks the kernel to remove semaphore
0, and returns normally: the semaphore of the other program is gone. -/
theorem second_destroy_removes_semaphore_zero :
    (Semaphore.destroy refSemKernel ⟨7, 2083⟩ twoSems).1 = .ok () ∧
    (Semaphore.destroy refSemKernel ⟨7, 2083⟩ twoSems).2.1.semid = 0 ∧
    (Semaphore.destroy refSemKernel (Semaphore.destroy refSemKernel ⟨7, 2083⟩ twoSems).2.1
      (Semaphore.destroy refSemKernel ⟨7, 2083⟩ twoSems).2.2).1 = .ok () ∧
    (Semaphore.destroy refSemKernel (Semaphore.destroy refSemKernel ⟨7, 2083⟩ twoSems).2.1
      (Semaphore.destroy refSemKernel ⟨7, 2083⟩ twoSems).2.2).2.2.trace
      = [.semctl 0 0 IPC_RMID none, .semctl 7 0 IPC_RMID none] ∧
    twoSems.os.semval 0 = some 1 ∧
    (Semaphore.destroy refSemKernel (Semaphore.destroy refSemKernel ⟨7, 2083⟩ twoSems).2.1
      (Semaphore.destroy refSemKernel ⟨7, 2083⟩ twoSems).2.2).2.2.os.semval 0 = none := by
  refine ⟨rfl, by decide, rfl, by decide, by decide, by decide⟩

/-- C6 (amended): for an object that is not attached and has a key that is
not negative, `attach` with a size above `maxSize()` throws after reading
`shmmax` only, with no `shmget`, and leaves the object as it was.  `create` has
no such check: it hands the size to `shmget`, and when the kernel refuses it
throws and leaves the object as it was. -/
theorem attach_rejects_oversize {σ : Type} (K : ShmKernel σ) (s : SharedMemory) (size : Nat)
    (attr : Int) (w : World σ) (hu : s.isAttached = false) (hk : 0 ≤ s.shm_key)
    (hs : (maxSize K w).1 < size) :
    s.attach K size attr w
      = (.error errOversize, s, { os := w.os, trace := .readShmmax :: w.trace }) ∧
    (∀ key : Int, 0 < key →
      (K.call w.os (.shmget key size (Int.lor attr IPC_CREAT))).1.ret < 0 →
      s.create K key size attr w
        = (.error errCreationFailed, s,
            { os := (K.call w.os (.shmget key size (Int.lor attr IPC_CREAT))).2,
              trace := .shmget key size (Int.lor attr IPC_CREAT) :: w.trace })) := by
  constructor
  · unfold attach
    dsimp only
    rw [if_neg (not_lt.mpr hk), hu]
    simp only [Bool.false_eq_true, if_false]
    rw [if_pos hs]
    rfl
  · intro key hkey hret
    unfold create
    dsimp only
    rw [if_neg (not_le.mpr hkey), hu]
    simp only [Bool.false_eq_true, if_false]
    rw [if_pos (by simpa [sys] using hret)]
    rfl

/-- Witness of C6 (amended): `SharedMemory(42)` asking for one byte more than
`shmmax` on the reference kernel. -/
theorem attach_rejects_oversize_witness :
    (maxSize refKernel (emptyShm 1)).1 < 33554433 ∧
    (SharedMemory.newKey 42).attach refKernel 33554433 attr0600 (emptyShm 1)
      = (.error errOversize, SharedMemory.newKey 42,
          { os := (emptyShm 1).os, trace := [.readShmmax] }) ∧
    (SharedMemory.newKey 42).create refKernel 42 33554433 attr0600 (emptyShm 1)
      = (.error errCreationFailed, SharedMemory.newKey 42,
          { os := (emptyShm 1).os, trace := [.shmget 42 33554433 896] }) :=
  ⟨by decide,
    (attach_rejects_oversize refKernel (SharedMemory.newKey 42) 33554433 attr0600 (emptyShm 1)
      rfl (by decide) (by decide)).1,
    (attach_rejects_oversize refKernel (SharedMemory.newKey 42) 33554433 attr0600 (emptyShm 1)
      rfl (by decide) (by decide)).2 42 (by decide) (by decide)⟩

/-- Counterexample to C6: `SharedMemory(42)` is not attached and its key is
valid; `create(42, 33554433, 0600)` with `maxSize() = 33554432` issues a
`shmget` for that size. -/
theorem create_oversize_counterexample :
    (SharedMemory.newKey 42).isAttached = false ∧
    (maxSize refKernel (emptyShm 1)).1 = 33554432 ∧
    ((SharedMemory.newKey 42).create refKernel 42 33554433 attr0600 (emptyShm 1)).2.2.trace
      = [.shmget 42 33554433 896] := by
  exact ⟨by decide, by decide, by decide⟩

/-- C8 (amended): on an attached object, `attach(size, attr)`,
`create(key, size, attr)` and `create(size, attr)` throw, issue no system call
and leave every member as it was.  The exception is the one for an attached
object when the key passes the check made first (stored key not negative for
`attach`, key positive for `create`), and the one for an illegal key
otherwise. -/
theorem reattach_rejected {σ : Type} (K : ShmKernel σ) (s : SharedMemory) (w : World σ)
    (h : s.isAttached = true) (key : Int) (size : Nat) (attr : Int) :
    s.attach K size attr w
      = (.error (if s.shm_key < 0 then errIllegalKey else errAlreadyAttached), s, w) ∧
    s.create K key size attr w
      = (.error (if key ≤ 0 then errIllegalKey else errAlreadyAttached), s, w) ∧
    s.createStored K size attr w
      = (.error (if s.shm_key ≤ 0 then errIllegalKey else errAlreadyAttached), s, w) := by
  refine ⟨?_, ?_, ?_⟩
  · unfold attach
    split_ifs <;> rfl
  · unfold create
    split_ifs <;> rfl
  · unfold createStored create
    split_ifs <;> rfl

/-- Witness of C8 (amended): `SharedMemory(42)` attached on the reference
kernel, then `attach(16, 0600)` again. -/
theorem reattach_rejected_witness :
    (run refKernel (SharedMemory.newKey 42, emptyShm 1) [.attach 16 attr0600]).1.isAttached
      = true ∧
    ((run refKernel (SharedMemory.newKey 42, emptyShm 1) [.attach 16 attr0600]).1.attach refKernel
        16 attr0600
        (run refKernel (SharedMemory.newKey 42, emptyShm 1) [.attach 16 attr0600]).2).1
      = .error errAlreadyAttached :=
  ⟨by decide,
    congrArg Prod.fst (reattach_rejected refKernel
      (run refKernel (SharedMemory.newKey 42, emptyShm 1) [.attach 16 attr0600]).1
      (run refKernel (SharedMemory.newKey 42, emptyShm 1) [.attach 16 attr0600]).2
      (by decide) 42 16 attr0600).1⟩

/-- Counterexample to C8: `SharedMemory(42)` attached on the reference kernel;
`create(0, 16, 0600)` throws the exception for an illegal key, which is not the
one for an attached object. -/
theorem reattach_illegal_key_counterexample :
    (run refKernel (SharedMemory.newKey 42, emptyShm 1) [.attach 16 attr0600]).1.isAttached
      = true ∧
    ((run refKernel (SharedMemory.newKey 42, emptyShm 1) [.attach 16 attr0600]).1.create refKernel
        0 16 attr0600
        (run refKernel (SharedMemory.newKey 42, emptyShm 1) [.attach 16 attr0600]).2).1
      = .error errIllegalKey ∧
    errIllegalKey ≠ errAlreadyAttached := by
  exact ⟨by decide, rfl, by decide⟩

/-- C9: on the reference kernel of a process that cannot map, `attach(16,
0600)` on `SharedMemory(42)` returns `(void*)-1` without throwing; nothing is
mapped, yet `isAttached()` is true.  `detach()` on this object, which was never
attached, issues `shmdt((void*)-1)` and throws the exception for a failed
`shmdt`, not the one for an object that is not attached. -/
theorem detach_after_failed_shmat :
    ((SharedMemory.newKey 42).attach noMapKernel 16 attr0600 (emptyShm 1)).1 = .ok (-1) ∧
    ((SharedMemory.newKey 42).attach noMapKernel 16 attr0600 (emptyShm 1)).2.2.os.maps = [] ∧
    ((SharedMemory.newKey 42).attach noMapKernel 16 attr0600 (emptyShm 1)).2.1.isAttached
      = true ∧
    (((SharedMemory.newKey 42).attach noMapKernel 16 attr0600 (emptyShm 1)).2.1.detach
        noMapKernel
        ((SharedMemory.newKey 42).attach noMapKernel 16 attr0600 (emptyShm 1)).2.2).1
      = .error errDetachFailed ∧
    (((SharedMemory.newKey 42).attach noMapKernel 16 attr0600 (emptyShm 1)).2.1.detach
        noMapKernel
        ((SharedMemory.newKey 42).attach noMapKernel 16 attr0600 (emptyShm 1)).2.2).2.2.trace.head?
      = some (.shmdt (-1)) ∧
    errDetachFailed ≠ errNotAttached := by
  refine ⟨rfl, by decide, by decide, rfl, by decide, by decide⟩

/-- C10: on the reference kernel, for a semaphore object whose id names a live
semaphore and for `0 <= c <= v <= 32767`: `setValue(v)` returns and
`getValue()` is `v`; `aquire(c)` returns, it does not block, and `getValue()`
is `v - c`; `release(c)` returns and `getValue()` is `v` again. -/
theorem semaphore_round_trip (sem : Semaphore) (w : SemWorld SemState) (x v c : Int)
    (hid : 0 ≤ sem.semid) (hlive : w.os.semval sem.semid = some x)
    (hc : 0 ≤ c) (hcv : c ≤ v) (hv : v ≤ 32767) :
    roundTrip refSemKernel sem v c w
      = (.ok (), .ok v, .ok (), .ok (v - c), .ok (), .ok v) := by
  have s1 := setValue_ref sem w x v hid hlive (by omega) hv
  have s2 := getValue_ref sem _ v hid s1.2 (by omega)
  have s3 := decrease_ref sem _ v c hid s2.2 hc hcv hv
  have s4 := getValue_ref sem _ (v - c) hid s3.2 (by omega)
  have s5 := increase_ref sem _ (v - c) c hid s4.2 hc (by omega) (by omega)
  have s6 := getValue_ref sem _ (v - c + c) hid s5.2 (by omega)
  unfold roundTrip
  dsimp only
  unfold Semaphore.aquire Semaphore.release
  rw [s1.1, s2.1, s3.1, s4.1, s5.1, s6.1]
  simp

/-- Witness of C10: `v = 5`, `c = 3` on the semaphore 7 gives 5, 2, 5. -/
theorem semaphore_round_trip_witness :
    roundTrip refSemKernel ⟨7, 2083⟩ 5 3 twoSems
      = (.ok (), .ok 5, .ok (), .ok 2, .ok (), .ok 5) :=
  semaphore_round_trip ⟨7, 2083⟩ twoSems 1 5 3 (by decide) rfl (by decide) (by decide) (by decide)

/-- C11: for every semaphore object, one the constructor gave and on which
`destroy()` was called any number of times, and every count below `0`,
`decrease`, `aquire`, `increase` and `release` throw and issue no system call;
for the count `0` they return and issue no system call.  The world, and with
it the trace of calls, is the same after as before. -/
theorem count_validation {σ : Type} (K : SemKernel σ) (key attr : Int) (w0 : SemWorld σ)
    (sem : Semaphore) (hnew : (Semaphore.new K key attr w0).1 = .ok sem)
    (n : Nat) (w1 w : SemWorld σ) (count : Int) :
    (count < 0 →
      (destroyTimes K n (sem, w1)).1.decrease K count w = (.raise errNegativeCount, w) ∧
      (destroyTimes K n (sem, w1)).1.aquire K count w = (.raise errNegativeCount, w) ∧
      (destroyTimes K n (sem, w1)).1.increase K count w = (.raise errNegativeCount, w) ∧
      (destroyTimes K n (sem, w1)).1.release K count w = (.raise errNegativeCount, w)) ∧
    (count = 0 →
      (destroyTimes K n (sem, w1)).1.decrease K count w = (.ok (), w) ∧
      (destroyTimes K n (sem, w1)).1.aquire K count w = (.ok (), w) ∧
      (destroyTimes K n (sem, w1)).1.increase K count w = (.ok (), w) ∧
      (destroyTimes K n (sem, w1)).1.release K count w = (.ok (), w)) := by
  have hid : 0 ≤ (destroyTimes K n (sem, w1)).1.semid :=
    destroyTimes_semid_nonneg K n (sem, w1) (new_semid_nonneg K key attr w0 sem hnew)
  have h := count_checked_nonneg_id K (destroyTimes K n (sem, w1)).1 w count hid
  exact ⟨fun hc => ⟨(h.1 hc).1, (h.1 hc).1, (h.1 hc).2, (h.1 hc).2⟩,
    fun hc => ⟨(h.2 hc).1, (h.2 hc).1, (h.2 hc).2, (h.2 hc).2⟩⟩

/-- Witness of C11: the object of semaphore 7 on the reference kernel, after
one `destroy()`, with the counts `-3` and `0`. -/
theorem count_validation_witness :
    (Semaphore.new refSemKernel 2083 attr0600 twoSems).1 = .ok ⟨7, 2083⟩ ∧
    (destroyTimes refSemKernel 1 (⟨7, 2083⟩, twoSems)).1.decrease refSemKernel (-3) twoSems
      = (.raise errNegativeCount, twoSems) ∧
    (destroyTimes refSemKernel 1 (⟨7, 2083⟩, twoSems)).1.release refSemKernel 0 twoSems
      = (.ok (), twoSems) :=
  ⟨rfl,
    ((count_validation refSemKernel 2083 attr0600 twoSems ⟨7, 2083⟩ rfl 1 twoSems twoSems
      (-3)).1 (by decide)).1,
    ((count_validation refSemKernel 2083 attr0600 twoSems ⟨7, 2083⟩ rfl 1 twoSems twoSems
      0).2 rfl).2.2.2⟩

/-- C12: on the reference kernel, with semaphore 7 at value 1:
`increase(65536)` hands the kernel the operation value `0`, a wait for zero,
and does not return; `increase(65535)` hands it `-1` and the value goes down to
`0`; `decrease(65535)` hands it `+1` and the value goes up to `2`. -/
theorem narrowed_count_changes_operation :
    twoSems.os.semval 7 = some 1 ∧
    (Semaphore.increase refSemKernel ⟨7, 2083⟩ 65536 twoSems).2.trace = [.semop 7 0 0 0] ∧
    (Semaphore.increase refSemKernel ⟨7, 2083⟩ 65536 twoSems).1 = .blocked ∧
    (Semaphore.increase refSemKernel ⟨7, 2083⟩ 65535 twoSems).2.trace
      = [.semop 7 0 (-1) 0] ∧
    (Semaphore.increase refSemKernel ⟨7, 2083⟩ 65535 twoSems).1 = .ok () ∧
    (Semaphore.increase refSemKernel ⟨7, 2083⟩ 65535 twoSems).2.os.semval 7 = some 0 ∧
    (Semaphore.decrease refSemKernel ⟨7, 2083⟩ 65535 twoSems).2.trace = [.semop 7 0 1 0] ∧
    (Semaphore.decrease refSemKernel ⟨7, 2083⟩ 65535 twoSems).1 = .ok () ∧
    (Semaphore.decrease refSemKernel ⟨7, 2083⟩ 65535 twoSems).2.os.semval 7 = some 2 := by
  refine ⟨by decide, by decide, rfl, by decide, rfl, by decide, by decide, rfl, by decide⟩

end LinuxIPC
